import Mathlib

/-!
Shallow embedding of src/pytest_helm_charts/clusters.py.

The module under verification defines an abstract Cluster and the
ExistingCluster implementation.  The observable pieces embedded here are:
attribute assignment in the initializer, destroy of the kube client, the
kubectl command wrapper with its json output decoding, and the
port_forward context manager with its spawn/sleep/poll/probe retry loop.

External collaborators (the json parser, the subprocess runner, the
random entropy source, the TCP probe outcome) are modelled as explicit
parameters, and the side effects the claims talk about (process spawns
and kills, TCP probes) are recorded in explicit event traces.

Python attributes that the initializer may or may not have assigned are
modelled as Option fields: none means the attribute was never assigned,
so reading it raises AttributeError.
-/

namespace Clusters

/-- Values produced by the external json parser (the json.loads
collaborator of ExistingCluster.kubectl). -/
inductive Json where
  | null : Json
  | bool (b : Bool) : Json
  | num (n : Int) : Json
  | str (s : String) : Json
  | arr (xs : List Json) : Json
  | obj (fields : List (String × Json)) : Json

/-- The Python membership test on a loaded json value, as in the source
line `if "items" in output_json`: key membership for a decoded object,
element membership for a decoded array.  Other shapes answer false here;
the claims only exercise decoded objects. -/
def Json.has_member (j : Json) (k : String) : Bool :=
  match j with
  | Json.obj fields => fields.any (fun f => f.1 == k)
  | Json.arr xs => xs.any (fun x => match x with | Json.str s => s == k | _ => false)
  | _ => false

/-- Subscripting a loaded json value with a string key, as in the source
line `return output_json["items"]`.  Defined for decoded objects (the
only shape on which the source reaches it after the has_member guard);
on other shapes Python would raise, which no claim exercises, so the
result there is just null. -/
def Json.subscript (j : Json) (k : String) : Json :=
  match j with
  | Json.obj fields =>
    match fields.find? (fun f => f.1 == k) with
    | some f => f.2
    | none => Json.null
  | _ => Json.null

/-- Value returned by ExistingCluster.kubectl: decoded json or the raw
captured text. -/
inductive KubectlValue where
  | jsonValue (j : Json) : KubectlValue
  | text (s : String) : KubectlValue

/-- Lines 131 to 136 of clusters.py: the post-processing of the captured
command output.  When the requested output format is "json", parse the
text; if the parsed value has a top-level "items" member, return that
member, otherwise parse the text again and return the parsed value.
For any other output format return the raw text unchanged.
The parser json.loads is the loads parameter. -/
def kubectl_json_decode (output : String) (result : String) (loads : String → Json) : KubectlValue :=
  if output == "json" then
    let output_json := loads result
    if output_json.has_member "items" then KubectlValue.jsonValue (output_json.subscript "items")
    else KubectlValue.jsonValue (loads result)
  else KubectlValue.text result

/-- The attributes of an ExistingCluster object.  The three path
attributes are Option String with none meaning "never assigned", so a
read of a none field is an AttributeError.  The _kube_client field holds
the Python value assigned by the base initializer: none is Python None,
some is an established client. -/
structure ExistingCluster where
  kube_config_path : Option String
  kubectl_path : Option String
  kubeconfig_path : Option String
  _kube_client : Option Unit
deriving DecidableEq, Repr

/-- Lines 50 to 53 of clusters.py, together with the base initializer:
assigns kube_config_path from the argument, kubectl_path to the fixed
binary location, and _kube_client to Python None.  The attribute
kubeconfig_path that both kubectl and port_forward later read is never
assigned. -/
def ExistingCluster.init (kube_config_path : String) : ExistingCluster :=
  { kube_config_path := some kube_config_path
    kubectl_path := some "/usr/local/bin/kubectl"
    kubeconfig_path := none
    _kube_client := none }

/-- Side effect of destroy: closing the client session. -/
inductive DestroyAction where
  | closeSession : DestroyAction
deriving DecidableEq, Repr

/-- Lines 60 to 64 of clusters.py: if _kube_client is None return at
once with no action, otherwise close the session and set _kube_client
to None. -/
def ExistingCluster.destroy (c : ExistingCluster) : ExistingCluster × List DestroyAction :=
  match c._kube_client with
  | none => (c, [])
  | some _ => ({ c with _kube_client := none }, [DestroyAction.closeSession])

/-- Python errors that the embedded method bodies can raise. -/
inductive PyErr where
  | attributeError (name : String) : PyErr
deriving DecidableEq, Repr

/-- External process activity of the kubectl wrapper. -/
inductive KubectlEvent where
  | check_output (command : String) (arg_string : String) : KubectlEvent
deriving DecidableEq, Repr

/-- Lines 79 to 136 of clusters.py, the kubectl method: resolve the
command from the kubectl_path attribute (falling back to "kubectl" when
that attribute holds a falsy string), then, while building the kwargs
option set, read the kubeconfig_path attribute (line 110) - an
AttributeError when it was never assigned, raised before the subprocess
call on line 117.  When the attribute is assigned, the external runner
is invoked (its captured stdout is the check_output_result parameter)
and the output is post-processed by kubectl_json_decode.  The rendering
of the namespace, output, kubeconfig and filename kwargs into option
strings has no observable effect modelled by any claim and is not
tracked. -/
def ExistingCluster.kubectl (c : ExistingCluster) (arg_string : String)
    (_ns : Option String) (output : String) (_input : String)
    (check_output_result : String) (loads : String → Json) :
    List KubectlEvent × Except PyErr KubectlValue :=
  match c.kubectl_path with
  | none => ([], Except.error (PyErr.attributeError "kubectl_path"))
  | some kp =>
    let command := if kp = "" then "kubectl" else kp
    match c.kubeconfig_path with
    | none => ([], Except.error (PyErr.attributeError "kubeconfig_path"))
    | some _ =>
      ([KubectlEvent.check_output command arg_string],
       Except.ok (kubectl_json_decode output check_output_result loads))

/-- Observable behavior of one spawned forwarding process, as the loop
sees it: proc.poll() returned an exit code (the process exited during
the post-spawn sleep), or poll returned None and the TCP connect probe
to the chosen port succeeded, or poll returned None and the probe
raised a connection error. -/
inductive AttemptBehavior where
  | exitedEarly (code : Int) : AttemptBehavior
  | aliveReachable : AttemptBehavior
  | aliveUnreachable : AttemptBehavior
deriving DecidableEq, Repr

/-- Process and probe events of a port_forward run.  A spawn records the
fresh process id, the forwarded target and the local and remote ports of
the command line; a kill records proc.kill() on a process id; a probe
records the TCP connect attempt and its outcome. -/
inductive Event where
  | spawn (pid : Nat) (target : String) (local_port : Nat) (remote_port : Nat) : Event
  | kill (pid : Nat) : Event
  | probe (port : Nat) (ok : Bool) : Event
deriving DecidableEq, Repr

/-- How the caller's scope around the yielded port exits: falls off the
end, returns early, or raises an error inside the scope. -/
inductive ExitMode where
  | normal : ExitMode
  | earlyReturn : ExitMode
  | raised : ExitMode
deriving DecidableEq, Repr

/-- Result of a port_forward invocation.  ok and callerError mean the
scope was entered and exited (callerError: the caller's own error
propagates on after cleanup).  typeError models Python rejecting a call
that lacks a required positional argument before the body runs.
invalidRequestError is the InvalidRequest error kind of the spec's
error model (section 7); no embedded code path produces it, it exists
so a claim about it can be stated. -/
inductive PFResult where
  | ok (port : Nat) : PFResult
  | callerError (port : Nat) : PFResult
  | typeError : PFResult
  | attributeError (name : String) : PFResult
  | exitCodeError (code : Int) : PFResult
  | connectError : PFResult
  | unboundLocalError : PFResult
  | invalidRequestError : PFResult
deriving DecidableEq, Repr

/-- random.randrange(lo, hi) applied to one draw from the entropy
source: some value in the half-open interval from lo to hi. -/
def randrange (lo hi : Nat) (entropy : Nat) : Nat := lo + entropy % (hi - lo)

/-- Line 175 of clusters.py: `local_port or random.randrange(5000, 30000)`.
A missing local_port (Python None) and an explicit local_port of 0 are
both falsy, so both fall through to the random draw. -/
def port_to_use (local_port : Option Nat) (entropy : Nat) : Nat :=
  match local_port with
  | none => randrange 5000 30000 entropy
  | some p => if p = 0 then randrange 5000 30000 entropy else p

/-- The `if proc: proc.kill()` pattern at the top of each loop iteration
and in the finally block: kill the tracked process when there is one. -/
def killEvents (proc : Option Nat) : List Event :=
  match proc with
  | some pid => [Event.kill pid]
  | none => []

/-- The Python local variables of the port_forward body that the loop
mutates, plus the spawn counter that hands out fresh process ids and
the accumulated event trace.  proc and port_to_use start out unassigned
(none); a body that reaches the yield with port_to_use still none is an
UnboundLocalError. -/
structure LoopSt where
  proc : Option Nat
  port_to_use : Option Nat
  spawns : Nat
  events : List Event
deriving DecidableEq, Repr

/-- Outcome of the retry loop on lines 171 to 209: the loop ran all its
iterations and fell through to the yield (completed), or it raised the
exit-code Exception of line 195 on the last iteration (exitCodeError),
or it re-raised the connect error of line 209 on the last iteration
(connectError).  Each outcome carries the final local-variable state. -/
inductive LoopOut where
  | completed (st : LoopSt) : LoopOut
  | exitCodeError (code : Int) (st : LoopSt) : LoopOut
  | connectError (st : LoopSt) : LoopOut
deriving DecidableEq, Repr

/-- Final local-variable state of a loop outcome. -/
def LoopOut.st : LoopOut → LoopSt
  | LoopOut.completed st => st
  | LoopOut.exitCodeError _ st => st
  | LoopOut.connectError st => st

/-- The terminal errors the loop can raise. -/
inductive TerminalError where
  | exitCode (code : Int) : TerminalError
  | connect : TerminalError
deriving DecidableEq, Repr

/-- The terminal error reported by a loop outcome, if any. -/
def LoopOut.terminalError : LoopOut → Option TerminalError
  | LoopOut.completed _ => none
  | LoopOut.exitCodeError code _ => some (TerminalError.exitCode code)
  | LoopOut.connectError _ => some TerminalError.connect

/-- The terminal error the final attempt's behavior leads to when the
loop exhausts its budget without a success. -/
def expectedTerminal : AttemptBehavior → Option TerminalError
  | AttemptBehavior.exitedEarly code => some (TerminalError.exitCode code)
  | AttemptBehavior.aliveReachable => none
  | AttemptBehavior.aliveUnreachable => some TerminalError.connect

/-- One-for-one embedding of the `for i in range(retries)` loop of lines
171 to 209, recursing on the number of remaining iterations (the Python
guard `i >= retries - 1` holds exactly when no iteration remains after
the current one).  Each iteration: kill the previous attempt's process
if any (line 172), pick the port (line 175), spawn a fresh process
(line 176), sleep, poll it (line 192); an early exit raises on the last
iteration and otherwise continues to the next attempt (lines 193-200);
a live process is probed with a TCP connect (line 206) whose failure
raises on the last iteration and is swallowed otherwise (lines
207-209).  A successful probe does not leave the loop - the source has
no break - so the next iteration, if any, kills the live process and
spawns again. -/
def runLoopAux (svc : String) (remote_port : Nat) (local_port : Option Nat)
    (beh : Nat → AttemptBehavior) (ent : Nat → Nat) :
    Nat → Nat → LoopSt → LoopOut
  | 0, _, st => LoopOut.completed st
  | remaining + 1, i, st =>
    let port := port_to_use local_port (ent i)
    let pid := st.spawns
    let ev2 := st.events ++ killEvents st.proc ++ [Event.spawn pid svc port remote_port]
    match beh i with
    | AttemptBehavior.exitedEarly code =>
      if remaining = 0 then LoopOut.exitCodeError code ⟨some pid, some port, pid + 1, ev2⟩
      else runLoopAux svc remote_port local_port beh ent remaining (i + 1)
        ⟨some pid, some port, pid + 1, ev2⟩
    | AttemptBehavior.aliveReachable =>
      runLoopAux svc remote_port local_port beh ent remaining (i + 1)
        ⟨some pid, some port, pid + 1, ev2 ++ [Event.probe port true]⟩
    | AttemptBehavior.aliveUnreachable =>
      if remaining = 0 then
        LoopOut.connectError ⟨some pid, some port, pid + 1, ev2 ++ [Event.probe port false]⟩
      else runLoopAux svc remote_port local_port beh ent remaining (i + 1)
        ⟨some pid, some port, pid + 1, ev2 ++ [Event.probe port false]⟩

/-- The retry loop started from the initial local-variable state of the
port_forward body: proc = None, port_to_use unassigned, no spawns yet. -/
def runLoop (svc : String) (remote_port : Nat) (local_port : Option Nat)
    (beh : Nat → AttemptBehavior) (ent : Nat → Nat) (retries : Nat) : LoopOut :=
  runLoopAux svc remote_port local_port beh ent retries 0 ⟨none, none, 0, []⟩

/-- Lines 145 to 215 of clusters.py, the body of the port_forward
context manager as run by entering and leaving the with-block: read the
kubectl_path attribute (line 159) and the kubeconfig_path attribute
(line 165) - an AttributeError when either was never assigned - then
run the retry loop; a loop error propagates out of the entry and skips
the try/finally, which is only entered afterwards.  When the loop
completes, the body evaluates `yield port_to_use` inside the try block:
an unassigned port_to_use is an UnboundLocalError, and otherwise the
caller's scope runs and, on every exit mode, the finally block kills
the tracked process. -/
def port_forward_body (c : ExistingCluster) (service_or_pod_name : String)
    (remote_port : Nat) (local_port : Option Nat) (retries : Nat)
    (beh : Nat → AttemptBehavior) (ent : Nat → Nat) (mode : ExitMode) :
    List Event × PFResult :=
  match c.kubectl_path with
  | none => ([], PFResult.attributeError "kubectl_path")
  | some _ =>
    match c.kubeconfig_path with
    | none => ([], PFResult.attributeError "kubeconfig_path")
    | some _ =>
      match runLoop service_or_pod_name remote_port local_port beh ent retries with
      | LoopOut.exitCodeError code st => (st.events, PFResult.exitCodeError code)
      | LoopOut.connectError st => (st.events, PFResult.connectError)
      | LoopOut.completed st =>
        match st.port_to_use with
        | none => (st.events ++ killEvents st.proc, PFResult.unboundLocalError)
        | some port =>
          match mode with
          | ExitMode.normal => (st.events ++ killEvents st.proc, PFResult.ok port)
          | ExitMode.earlyReturn => (st.events ++ killEvents st.proc, PFResult.ok port)
          | ExitMode.raised => (st.events ++ killEvents st.proc, PFResult.callerError port)

/-- A call of port_forward under Python's calling convention: the
service_or_pod_name and remote_port parameters have no defaults, so a
call that does not supply one is rejected with a TypeError before the
body runs; local_port defaults to None and retries to 10. -/
def port_forward_call (c : ExistingCluster) (service_or_pod_name : Option String)
    (remote_port : Option Nat) (local_port : Option Nat) (retries : Nat)
    (beh : Nat → AttemptBehavior) (ent : Nat → Nat) (mode : ExitMode) :
    List Event × PFResult :=
  match service_or_pod_name, remote_port with
  | some svc, some remote => port_forward_body c svc remote local_port retries beh ent mode
  | _, _ => ([], PFResult.typeError)

/-- A cluster object whose kubeconfig_path attribute was assigned after
construction (Python allows external attribute assignment); this is the
only way any run gets past the attribute read on line 165. -/
def patchedCluster : ExistingCluster :=
  { kube_config_path := some "cfg"
    kubectl_path := some "/usr/local/bin/kubectl"
    kubeconfig_path := some "cfg"
    _kube_client := none }

/-- The process ids the trace considers alive: spawned and not yet
killed.  A process that exited on its own still counts until its kill,
which only over-approximates aliveness. -/
def aliveStep (alive : List Nat) : Event → List Nat
  | Event.spawn pid _ _ _ => alive ++ [pid]
  | Event.kill pid => alive.filter (fun q => q != pid)
  | Event.probe _ _ => alive

/-- Alive process ids after a whole event trace. -/
def aliveAfter (events : List Event) : List Nat := List.foldl aliveStep [] events

/-- The alive list a tracked proc variable corresponds to. -/
def procList : Option Nat → List Nat
  | some pid => [pid]
  | none => []

/-- Loop-state sanity tying the tracked process to the trace: either no
process was tracked yet, or the tracked process and chosen port were
recorded by a spawn event in the trace. -/
def LoopSt.tracked (svc : String) (remote : Nat) (st : LoopSt) : Prop :=
  st.proc = none ∨ ∃ q p, st.proc = some q ∧ st.port_to_use = some p ∧
    Event.spawn q svc p remote ∈ st.events

/-- A concrete json.loads collaborator covering the two structured
outputs exercised by the claims. -/
def loadsW : String → Json := fun s =>
  if s = "\x7b\"items\": [1,2,3]\x7d" then
    Json.obj [("items", Json.arr [Json.num 1, Json.num 2, Json.num 3])]
  else if s = "\x7b\"a\": 1\x7d" then
    Json.obj [("a", Json.num 1)]
  else Json.null

/-- C8: calling destroy a second time, once the client has already been
released, changes nothing and performs no action - destroy is
idempotent and safe to call when already destroyed. -/
theorem c8_destroy_idempotent (c : Clusters.ExistingCluster) :
    (c.destroy.1).destroy = (c.destroy.1, ([] : List DestroyAction)) := by
  cases h : c._kube_client with
  | none => simp [ExistingCluster.destroy, h]
  | some u => simp [ExistingCluster.destroy, h]

/-- C9 counterexample: a forward request that supplies the explicit
local port 0 does not get port 0 back from the port picker - the Python
expression `local_port or random.randrange(5000, 30000)` treats 0 as
falsy and draws a random port instead. -/
theorem c9_counterexample : port_to_use (some 0) 0 ≠ 0 := by decide

/-- C9 amended: for every forward request that supplies a nonzero
explicit local port, the port picker returns exactly that port on every
attempt (for every entropy draw), with no randomization. -/
theorem c9_explicit_port_returned (p entropy : Nat) (hp : p ≠ 0) :
    port_to_use (some p) entropy = p := by
  simp [port_to_use, hp]

/-- C9 witness: the amended statement applied to the explicit local
port 9000 and an arbitrary entropy draw. -/
theorem c9_explicit_port_witness :
    (9000 : Nat) ≠ 0 ∧ port_to_use (some 9000) 123 = 9000 :=
  ⟨by decide, c9_explicit_port_returned 9000 123 (by decide)⟩

/-- C10: for every forward request without an explicit local port, the
port chosen on every attempt (for every entropy draw) lies within the
half-open range from 5000 to 30000. -/
theorem c10_random_port_range (entropy : Nat) :
    5000 ≤ port_to_use none entropy ∧ port_to_use none entropy < 30000 := by
  simp only [port_to_use, randrange]
  constructor
  · omega
  · omega

/-- C2 counterexample: the initializer does not assign only the
attribute kube_config_path - it also assigns kubectl_path (and
_kube_client through the base initializer), so kubectl_path is not
among the unassigned attributes after construction. -/
theorem c2_counterexample : ¬ ((ExistingCluster.init "cfg").kubectl_path = none) := by
  simp [ExistingCluster.init]

/-- C2 amended: the initializer assigns kube_config_path, kubectl_path
and _kube_client but never kubeconfig_path, so every call to kubectl
and every entry into port_forward raises an attribute-lookup error on
kubeconfig_path, with no external process spawned before the error. -/
theorem c2_attribute_error :
    (∀ (path arg : String) (ns : Option String) (output input co : String)
        (loads : String → Json),
      (ExistingCluster.init path).kubectl arg ns output input co loads
        = ([], Except.error (PyErr.attributeError "kubeconfig_path"))) ∧
    (∀ (path svc : String) (remote : Nat) (lp : Option Nat) (retries : Nat)
        (beh : Nat → AttemptBehavior) (ent : Nat → Nat) (mode : ExitMode),
      port_forward_body (ExistingCluster.init path) svc remote lp retries beh ent mode
        = ([], PFResult.attributeError "kubeconfig_path")) ∧
    (∀ path : String,
      (ExistingCluster.init path).kube_config_path = some path ∧
      (ExistingCluster.init path).kubectl_path = some "/usr/local/bin/kubectl" ∧
      (ExistingCluster.init path).kubeconfig_path = none) :=
  ⟨fun _ _ _ _ _ _ _ => rfl, fun _ _ _ _ _ _ _ _ => rfl, fun _ => ⟨rfl, rfl, rfl⟩⟩

/-- C3 evaluation at the failing input: with the default retry budget of
10, a process that exits with code 1 on attempt 1 while every later
attempt stays alive and probes reachable leads to 10 spawned processes,
not 2 - the loop has no break on success, so each later iteration kills
the live forward and spawns a fresh one - and the port yielded after the
10th attempt is the explicit local port 9000. -/
theorem c3_code_eval :
    (runLoop "svc/my-service" 8080 (some 9000)
        (fun i => if i = 0 then AttemptBehavior.exitedEarly 1 else AttemptBehavior.aliveReachable)
        (fun _ => 0) 10).st.spawns = 10 ∧
    (runLoop "svc/my-service" 8080 (some 9000)
        (fun i => if i = 0 then AttemptBehavior.exitedEarly 1 else AttemptBehavior.aliveReachable)
        (fun _ => 0) 10).terminalError = none ∧
    (runLoop "svc/my-service" 8080 (some 9000)
        (fun i => if i = 0 then AttemptBehavior.exitedEarly 1 else AttemptBehavior.aliveReachable)
        (fun _ => 0) 10).st.port_to_use = some 9000 := by
  refine ⟨rfl, rfl, rfl⟩

/-- C5 counterexample: a request with retries = 0 (violating the
claimed "retries at least 1" validation) is not rejected with an
InvalidRequest error; the body runs, spawns nothing, and fails with an
UnboundLocalError when the scope is entered. -/
theorem c5_counterexample :
    (port_forward_call patchedCluster (some "svc/my-service") (some 8080) none 0
        (fun _ => AttemptBehavior.exitedEarly 1) (fun _ => 0) ExitMode.normal).2
      ≠ PFResult.invalidRequestError ∧
    (port_forward_call patchedCluster (some "svc/my-service") (some 8080) none 0
        (fun _ => AttemptBehavior.exitedEarly 1) (fun _ => 0) ExitMode.normal)
      = ([], PFResult.unboundLocalError) := by
  refine ⟨by decide, rfl⟩

/-- C5 amended: the body performs no input validation of its own.  A
call that does not supply the target identifier or the remote port is
rejected by the calling convention with a TypeError before the body
runs and before any process is spawned; retries is not validated, and a
request with retries = 0 spawns no process and fails with an
UnboundLocalError on entering the scope rather than an InvalidRequest
error. -/
theorem c5_no_input_validation :
    (∀ (c : ExistingCluster) (remote lp : Option Nat) (retries : Nat)
        (beh : Nat → AttemptBehavior) (ent : Nat → Nat) (mode : ExitMode),
      port_forward_call c none remote lp retries beh ent mode = ([], PFResult.typeError)) ∧
    (∀ (c : ExistingCluster) (svc : String) (lp : Option Nat) (retries : Nat)
        (beh : Nat → AttemptBehavior) (ent : Nat → Nat) (mode : ExitMode),
      port_forward_call c (some svc) none lp retries beh ent mode = ([], PFResult.typeError)) ∧
    (∀ (a : Option String) (b k : String) (cl : Option Unit) (svc : String)
        (remote : Nat) (lp : Option Nat) (beh : Nat → AttemptBehavior)
        (ent : Nat → Nat) (mode : ExitMode),
      port_forward_call ⟨a, some b, some k, cl⟩ (some svc) (some remote) lp 0 beh ent mode
        = ([], PFResult.unboundLocalError)) :=
  ⟨fun _ _ _ _ _ _ _ => rfl, fun _ _ _ _ _ _ _ => rfl, fun _ _ _ _ _ _ _ _ _ _ => rfl⟩

/-- C6: with structured (json) output format, the output text holding an
object with an "items" member decodes to that member's list, an object
without an "items" member decodes to the whole object unchanged, and
with any non-structured output format the raw output text is returned
untouched - for every json.loads collaborator parsing the two texts to
the corresponding object values. -/
theorem c6_kubectl_output_decode :
    (∀ loads : String → Json,
      loads "\x7b\"items\": [1,2,3]\x7d"
          = Json.obj [("items", Json.arr [Json.num 1, Json.num 2, Json.num 3])] →
      loads "\x7b\"a\": 1\x7d" = Json.obj [("a", Json.num 1)] →
      kubectl_json_decode "json" "\x7b\"items\": [1,2,3]\x7d" loads
          = KubectlValue.jsonValue (Json.arr [Json.num 1, Json.num 2, Json.num 3]) ∧
      kubectl_json_decode "json" "\x7b\"a\": 1\x7d" loads
          = KubectlValue.jsonValue (Json.obj [("a", Json.num 1)])) ∧
    (∀ (loads : String → Json) (fmt raw : String), fmt ≠ "json" →
      kubectl_json_decode fmt raw loads = KubectlValue.text raw) := by
  constructor
  · intro loads h1 h2
    constructor
    · simp [kubectl_json_decode, h1, Json.has_member, Json.subscript]
    · simp [kubectl_json_decode, h2, Json.has_member, Json.subscript]
  · intro loads fmt raw hfmt
    simp [kubectl_json_decode, hfmt]

/-- C6 witness: the decode behavior at the two concrete structured
outputs under the concrete loads collaborator, and at a concrete
non-structured invocation. -/
theorem c6_kubectl_output_decode_witness :
    (kubectl_json_decode "json" "\x7b\"items\": [1,2,3]\x7d" loadsW
        = KubectlValue.jsonValue (Json.arr [Json.num 1, Json.num 2, Json.num 3]) ∧
     kubectl_json_decode "json" "\x7b\"a\": 1\x7d" loadsW
        = KubectlValue.jsonValue (Json.obj [("a", Json.num 1)])) ∧
    kubectl_json_decode "yaml" "raw text" loadsW = KubectlValue.text "raw text" :=
  ⟨c6_kubectl_output_decode.1 loadsW rfl rfl,
   c6_kubectl_output_decode.2 loadsW "yaml" "raw text" (by decide)⟩

/-- Helper for C4: a loop that still has iterations to go and whose
every attempt fails performs one spawn per iteration and ends in the
terminal error matching the final attempt's behavior. -/
theorem runLoopAux_exhaust (svc : String) (remote : Nat) (lp : Option Nat)
    (beh : Nat → AttemptBehavior) (ent : Nat → Nat)
    (hfail : ∀ j, beh j ≠ AttemptBehavior.aliveReachable) :
    ∀ remaining i st,
      (runLoopAux svc remote lp beh ent (remaining + 1) i st).st.spawns
          = st.spawns + (remaining + 1) ∧
      (runLoopAux svc remote lp beh ent (remaining + 1) i st).terminalError
          = expectedTerminal (beh (i + remaining)) := by
  intro remaining
  induction remaining with
  | zero =>
    intro i st
    cases hb : beh i with
    | exitedEarly code => simp [runLoopAux, hb, LoopOut.st, LoopOut.terminalError, expectedTerminal]
    | aliveReachable => exact absurd hb (hfail i)
    | aliveUnreachable => simp [runLoopAux, hb, LoopOut.st, LoopOut.terminalError, expectedTerminal]
  | succ r ih =>
    intro i st
    have hidx : expectedTerminal (beh (i + 1 + r)) = expectedTerminal (beh (i + (r + 1))) := by
      rw [show i + 1 + r = i + (r + 1) from by omega]
    cases hb : beh i with
    | exitedEarly code =>
      rw [runLoopAux, hb, if_neg (Nat.succ_ne_zero r)]
      have h2 := ih (i + 1) ⟨some st.spawns, some (port_to_use lp (ent i)), st.spawns + 1,
        st.events ++ killEvents st.proc ++ [Event.spawn st.spawns svc (port_to_use lp (ent i)) remote]⟩
      exact ⟨h2.1.trans (by show st.spawns + 1 + (r + 1) = st.spawns + (r + 1 + 1); omega),
        h2.2.trans hidx⟩
    | aliveReachable => exact absurd hb (hfail i)
    | aliveUnreachable =>
      rw [runLoopAux, hb, if_neg (Nat.succ_ne_zero r)]
      have h2 := ih (i + 1) ⟨some st.spawns, some (port_to_use lp (ent i)), st.spawns + 1,
        st.events ++ killEvents st.proc ++ [Event.spawn st.spawns svc (port_to_use lp (ent i)) remote]
          ++ [Event.probe (port_to_use lp (ent i)) false]⟩
      exact ⟨h2.1.trans (by show st.spawns + 1 + (r + 1) = st.spawns + (r + 1 + 1); omega),
        h2.2.trans hidx⟩

/-- C4: when every spawned forwarding process fails (exits early or
never probes reachable), the loop performs exactly `retries` spawn
attempts - never more, never fewer - and raises a single terminal
error: the exit-code error when the final attempt's process exited
early, the connection error when the final probe failed. -/
theorem c4_retry_exhaustion (svc : String) (remote : Nat) (lp : Option Nat)
    (beh : Nat → AttemptBehavior) (ent : Nat → Nat) (retries : Nat)
    (h1 : 1 ≤ retries) (hfail : ∀ j, beh j ≠ AttemptBehavior.aliveReachable) :
    (runLoop svc remote lp beh ent retries).st.spawns = retries ∧
    (runLoop svc remote lp beh ent retries).terminalError
        = expectedTerminal (beh (retries - 1)) := by
  obtain ⟨r, rfl⟩ : ∃ r, retries = r + 1 := ⟨retries - 1, by omega⟩
  have h := runLoopAux_exhaust svc remote lp beh ent hfail r 0 ⟨none, none, 0, []⟩
  simp only [runLoop]
  constructor
  · exact h.1.trans (show (0 : Nat) + (r + 1) = r + 1 by omega)
  · exact h.2.trans (by rw [Nat.zero_add, Nat.add_sub_cancel])

/-- C4 witness: the scenario of the spec - target "svc/my-service",
remote port 8080, retries 3, the process always exiting with code 1 on
spawn - performs exactly 3 spawns and reports the exit-code-1 error. -/
theorem c4_retry_exhaustion_witness :
    (runLoop "svc/my-service" 8080 none (fun _ => AttemptBehavior.exitedEarly 1)
        (fun _ => 0) 3).st.spawns = 3 ∧
    (runLoop "svc/my-service" 8080 none (fun _ => AttemptBehavior.exitedEarly 1)
        (fun _ => 0) 3).terminalError = some (TerminalError.exitCode 1) :=
  c4_retry_exhaustion "svc/my-service" 8080 none (fun _ => AttemptBehavior.exitedEarly 1)
    (fun _ => 0) 3 (by omega) (fun _ h => AttemptBehavior.noConfusion h)

/-- Helper for C1: the loop preserves the tie between the tracked
process variable and the spawn events of the trace. -/
theorem runLoopAux_tracked (svc : String) (remote : Nat) (lp : Option Nat)
    (beh : Nat → AttemptBehavior) (ent : Nat → Nat) :
    ∀ remaining i st, st.tracked svc remote →
      ((runLoopAux svc remote lp beh ent remaining i st).st).tracked svc remote := by
  intro remaining
  induction remaining with
  | zero => intro i st h; exact h
  | succ r ih =>
    intro i st h
    cases hb : beh i with
    | exitedEarly code =>
      rw [runLoopAux, hb]
      cases r with
      | zero =>
        rw [if_pos rfl]
        exact Or.inr ⟨st.spawns, port_to_use lp (ent i), rfl, rfl, by simp [LoopOut.st]⟩
      | succ r2 =>
        rw [if_neg (Nat.succ_ne_zero r2)]
        exact ih (i + 1)
          ⟨some st.spawns, some (port_to_use lp (ent i)), st.spawns + 1,
            st.events ++ killEvents st.proc
              ++ [Event.spawn st.spawns svc (port_to_use lp (ent i)) remote]⟩
          (Or.inr ⟨st.spawns, port_to_use lp (ent i), rfl, rfl, by simp⟩)
    | aliveReachable =>
      rw [runLoopAux, hb]
      exact ih (i + 1)
        ⟨some st.spawns, some (port_to_use lp (ent i)), st.spawns + 1,
          st.events ++ killEvents st.proc
            ++ [Event.spawn st.spawns svc (port_to_use lp (ent i)) remote]
            ++ [Event.probe (port_to_use lp (ent i)) true]⟩
        (Or.inr ⟨st.spawns, port_to_use lp (ent i), rfl, rfl, by simp⟩)
    | aliveUnreachable =>
      rw [runLoopAux, hb]
      cases r with
      | zero =>
        rw [if_pos rfl]
        exact Or.inr ⟨st.spawns, port_to_use lp (ent i), rfl, rfl, by simp [LoopOut.st]⟩
      | succ r2 =>
        rw [if_neg (Nat.succ_ne_zero r2)]
        exact ih (i + 1)
          ⟨some st.spawns, some (port_to_use lp (ent i)), st.spawns + 1,
            st.events ++ killEvents st.proc
              ++ [Event.spawn st.spawns svc (port_to_use lp (ent i)) remote]
              ++ [Event.probe (port_to_use lp (ent i)) false]⟩
          (Or.inr ⟨st.spawns, port_to_use lp (ent i), rfl, rfl, by simp⟩)

/-- Helper for C1: the loop output's tracked process and chosen port
were recorded by a spawn event of the trace, when a process is
tracked at all. -/
theorem runLoop_tracked (svc : String) (remote : Nat) (lp : Option Nat)
    (beh : Nat → AttemptBehavior) (ent : Nat → Nat) (retries : Nat) :
    ((runLoop svc remote lp beh ent retries).st).tracked svc remote :=
  runLoopAux_tracked svc remote lp beh ent retries 0 ⟨none, none, 0, []⟩ (Or.inl rfl)

/-- C1: for every invocation of the scoped port_forward resource that
reaches the caller's scope, on every exit path - normal return, early
return, or an error raised inside the caller's code - the very last
event of the run kills the child forwarding process, the same process
whose spawn event carries the yielded local port. -/
theorem c1_scope_cleanup (c : ExistingCluster) (svc : String) (remote : Nat)
    (lp : Option Nat) (retries : Nat) (beh : Nat → AttemptBehavior) (ent : Nat → Nat)
    (mode : ExitMode) (port pid : Nat)
    (hscope : (port_forward_body c svc remote lp retries beh ent mode).2 = PFResult.ok port ∨
      (port_forward_body c svc remote lp retries beh ent mode).2 = PFResult.callerError port)
    (hpid : (runLoop svc remote lp beh ent retries).st.proc = some pid) :
    (port_forward_body c svc remote lp retries beh ent mode).1.getLast?
        = some (Event.kill pid) ∧
    Event.spawn pid svc port remote ∈ (port_forward_body c svc remote lp retries beh ent mode).1 := by
  have htr := runLoop_tracked svc remote lp beh ent retries
  rcases hkp : c.kubectl_path with _ | kp
  · simp only [port_forward_body, hkp] at hscope
    rcases hscope with h | h <;> simp at h
  · rcases hkc : c.kubeconfig_path with _ | kc
    · simp only [port_forward_body, hkp, hkc] at hscope
      rcases hscope with h | h <;> simp at h
    · rcases hrl : runLoop svc remote lp beh ent retries with st | ⟨code, st⟩ | st
      case exitCodeError =>
        simp only [port_forward_body, hkp, hkc, hrl] at hscope
        rcases hscope with h | h <;> simp at h
      case connectError =>
        simp only [port_forward_body, hkp, hkc, hrl] at hscope
        rcases hscope with h | h <;> simp at h
      case completed =>
        rw [hrl] at htr hpid
        simp only [LoopOut.st] at htr hpid
        rcases htr with hnone | ⟨q, p', hq, hp', hmem⟩
        · rw [hnone] at hpid; exact absurd hpid (by simp)
        · rw [hq] at hpid
          injection hpid with hqpid
          subst hqpid
          have hport : p' = port := by
            cases mode <;>
              simp only [port_forward_body, hkp, hkc, hrl, hp'] at hscope <;>
              rcases hscope with h | h <;> simp at h <;> omega
          subst hport
          cases mode <;>
            exact ⟨by simp [port_forward_body, hkp, hkc, hrl, hp', hq, killEvents],
              by simp only [port_forward_body, hkp, hkc, hrl, hp', hq, killEvents]
                 exact List.mem_append_left _ hmem⟩

/-- C1 witness: a run with an assigned kubeconfig_path, explicit local
port 9000, one retry, a live and reachable process, whose scope exits
by a raised error: the last event of the whole run kills process 0, the
process spawned forwarding the yielded port. -/
theorem c1_scope_cleanup_witness :
    (port_forward_body patchedCluster "svc/my-service" 8080 (some 9000) 1
        (fun _ => AttemptBehavior.aliveReachable) (fun _ => 0) ExitMode.raised).1.getLast?
        = some (Event.kill 0) ∧
    Event.spawn 0 "svc/my-service" 9000 8080 ∈
      (port_forward_body patchedCluster "svc/my-service" 8080 (some 9000) 1
        (fun _ => AttemptBehavior.aliveReachable) (fun _ => 0) ExitMode.raised).1 :=
  c1_scope_cleanup patchedCluster "svc/my-service" 8080 (some 9000) 1
    (fun _ => AttemptBehavior.aliveReachable) (fun _ => 0) ExitMode.raised 9000 0
    (Or.inr rfl) rfl

/-- Helper for C7: the alive set after appending one event. -/
theorem aliveAfter_append_single (l : List Event) (e : Event) :
    aliveAfter (l ++ [e]) = aliveStep (aliveAfter l) e := by
  simp [aliveAfter, List.foldl_append]

/-- Helper for C7: the at-most-one-alive bound on every prefix survives
appending one event whose resulting alive set also satisfies it. -/
theorem bounded_append_single (l : List Event) (e : Event)
    (hB : ∀ n, (aliveAfter (l.take n)).length ≤ 1)
    (h2 : (aliveAfter (l ++ [e])).length ≤ 1) :
    ∀ n, (aliveAfter ((l ++ [e]).take n)).length ≤ 1 := by
  intro n
  rcases le_or_lt n l.length with hn | hn
  · rw [List.take_append_of_le_length hn]
    exact hB n
  · rw [List.take_of_length_le (by simp; omega)]
    exact h2

/-- Helper for C7: one iteration's kill-then-spawn trace extension
empties the alive set and then holds exactly the fresh process, keeping
every prefix at no more than one alive process. -/
theorem alive_iter (st : LoopSt) (pid : Nat) (svc : String) (port remote : Nat)
    (hA : aliveAfter st.events = procList st.proc)
    (hB : ∀ n, (aliveAfter (st.events.take n)).length ≤ 1) :
    aliveAfter (st.events ++ killEvents st.proc ++ [Event.spawn pid svc port remote])
        = [pid] ∧
    ∀ n, (aliveAfter ((st.events ++ killEvents st.proc
        ++ [Event.spawn pid svc port remote]).take n)).length ≤ 1 := by
  have h1 : aliveAfter (st.events ++ killEvents st.proc) = [] ∧
      ∀ n, (aliveAfter ((st.events ++ killEvents st.proc).take n)).length ≤ 1 := by
    cases hp : st.proc with
    | none =>
      rw [hp] at hA
      constructor
      · simp only [killEvents, List.append_nil]
        simpa [procList] using hA
      · simpa [killEvents] using hB
    | some q =>
      rw [hp] at hA
      have hA1 : aliveAfter (st.events ++ [Event.kill q]) = [] := by
        rw [aliveAfter_append_single, hA]
        simp [aliveStep, procList]
      constructor
      · simpa [killEvents] using hA1
      · simp only [killEvents]
        exact bounded_append_single _ _ hB (by rw [hA1]; simp)
  have h2A : aliveAfter (st.events ++ killEvents st.proc
      ++ [Event.spawn pid svc port remote]) = [pid] := by
    rw [aliveAfter_append_single, h1.1]
    simp [aliveStep]
  exact ⟨h2A, bounded_append_single _ _ h1.2 (by rw [h2A]; simp)⟩

/-- Helper for C7: a probe event leaves the alive set unchanged. -/
theorem alive_probe (l : List Event) (port : Nat) (b : Bool) (a : List Nat)
    (hA : aliveAfter l = a) (ha : a.length ≤ 1)
    (hB : ∀ n, (aliveAfter (l.take n)).length ≤ 1) :
    aliveAfter (l ++ [Event.probe port b]) = a ∧
    ∀ n, (aliveAfter ((l ++ [Event.probe port b]).take n)).length ≤ 1 := by
  have h : aliveAfter (l ++ [Event.probe port b]) = a := by
    rw [aliveAfter_append_single, hA, aliveStep]
  exact ⟨h, bounded_append_single _ _ hB (by rw [h]; exact ha)⟩

/-- Helper for C7: the loop preserves the correspondence between the
alive set of the trace and the tracked process, and the
at-most-one-alive bound on every prefix of the trace. -/
theorem runLoopAux_alive (svc : String) (remote : Nat) (lp : Option Nat)
    (beh : Nat → AttemptBehavior) (ent : Nat → Nat) :
    ∀ remaining i st,
      aliveAfter st.events = procList st.proc →
      (∀ n, (aliveAfter (st.events.take n)).length ≤ 1) →
      aliveAfter ((runLoopAux svc remote lp beh ent remaining i st).st).events
          = procList ((runLoopAux svc remote lp beh ent remaining i st).st).proc ∧
      ∀ n, (aliveAfter (((runLoopAux svc remote lp beh ent remaining i st).st).events.take n)).length
          ≤ 1 := by
  intro remaining
  induction remaining with
  | zero => intro i st hA hB; exact ⟨hA, hB⟩
  | succ r ih =>
    intro i st hA hB
    have hit := alive_iter st st.spawns svc (port_to_use lp (ent i)) remote hA hB
    cases hb : beh i with
    | exitedEarly code =>
      rw [runLoopAux, hb]
      cases r with
      | zero =>
        rw [if_pos rfl]
        exact ⟨hit.1, hit.2⟩
      | succ r2 =>
        rw [if_neg (Nat.succ_ne_zero r2)]
        exact ih (i + 1)
          ⟨some st.spawns, some (port_to_use lp (ent i)), st.spawns + 1,
            st.events ++ killEvents st.proc
              ++ [Event.spawn st.spawns svc (port_to_use lp (ent i)) remote]⟩
          hit.1 hit.2
    | aliveReachable =>
      rw [runLoopAux, hb]
      have hpr := alive_probe
        (st.events ++ killEvents st.proc
          ++ [Event.spawn st.spawns svc (port_to_use lp (ent i)) remote])
        (port_to_use lp (ent i)) true [st.spawns] hit.1 (by simp) hit.2
      exact ih (i + 1)
        ⟨some st.spawns, some (port_to_use lp (ent i)), st.spawns + 1,
          st.events ++ killEvents st.proc
            ++ [Event.spawn st.spawns svc (port_to_use lp (ent i)) remote]
            ++ [Event.probe (port_to_use lp (ent i)) true]⟩
        hpr.1 hpr.2
    | aliveUnreachable =>
      rw [runLoopAux, hb]
      have hpr := alive_probe
        (st.events ++ killEvents st.proc
          ++ [Event.spawn st.spawns svc (port_to_use lp (ent i)) remote])
        (port_to_use lp (ent i)) false [st.spawns] hit.1 (by simp) hit.2
      cases r with
      | zero =>
        rw [if_pos rfl]
        exact ⟨hpr.1, hpr.2⟩
      | succ r2 =>
        rw [if_neg (Nat.succ_ne_zero r2)]
        exact ih (i + 1)
          ⟨some st.spawns, some (port_to_use lp (ent i)), st.spawns + 1,
            st.events ++ killEvents st.proc
              ++ [Event.spawn st.spawns svc (port_to_use lp (ent i)) remote]
              ++ [Event.probe (port_to_use lp (ent i)) false]⟩
          hpr.1 hpr.2

/-- C7: throughout every run of the retry loop, at most one child
forwarding process is alive at any time - after every prefix of the
run's event trace, the set of spawned and not yet killed processes has
at most one element: every iteration kills the prior attempt's process
before spawning a new one, and attempts are strictly sequential. -/
theorem c7_single_live_process (svc : String) (remote : Nat) (lp : Option Nat)
    (beh : Nat → AttemptBehavior) (ent : Nat → Nat) (retries n : Nat) :
    (aliveAfter (((runLoop svc remote lp beh ent retries).st).events.take n)).length ≤ 1 :=
  (runLoopAux_alive svc remote lp beh ent retries 0 ⟨none, none, 0, []⟩ rfl
    (fun _ => by simp [aliveAfter])).2 n

end Clusters
